import Mathlib

/-
Verification of the avt_vimba_camera mono camera node
(src/src/mono_camera.cpp) against its natural-language specification.

The embedding models the node's two entry points — the dynamic-reconfigure
callback MonoCamera::configure (with its helper updateCameraInfo) and the
frame-arrival callback MonoCamera::frameCallback — as pure Lean functions
over explicit state. External collaborators (the Vimba camera wrapper, the
camera_info_manager, the image transport publisher) are modelled by
environment records whose behaviour, including thrown exceptions, is a
parameter of the theorems.
-/

namespace AvtVimbaCamera

/-- Region-of-interest metadata of a calibration record
(sensor_msgs/RegionOfInterest). -/
structure RegionOfInterest where
  x_offset : Nat
  y_offset : Nat
  height : Nat
  width : Nat
  do_rectify : Bool
deriving Repr, DecidableEq

/-- Calibration record (sensor_msgs/CameraInfo), restricted to the fields
mono_camera.cpp touches, plus an opaque payload `calib` standing for the
intrinsic/extrinsic data (distortion model, D, K, R, P) that only a load
from a calibration source can change. -/
structure CameraInfo where
  frame_id : String
  stamp : Nat
  height : Nat
  width : Nat
  binning_x : Nat
  binning_y : Nat
  roi : RegionOfInterest
  calib : List Int
deriving Repr, DecidableEq

/-- Dynamic-reconfigure configuration snapshot (AvtVimbaCameraConfig),
restricted to the fields mono_camera.cpp reads. -/
structure Config where
  frame_id : String
  height : Nat
  width : Nat
  binning_x : Nat
  binning_y : Nat
  roi_offset_x : Nat
  roi_offset_y : Nat
  roi_height : Nat
  roi_width : Nat
  camera_info_url : String
deriving Repr, DecidableEq

/-- State of the camera_info_manager collaborator: the active camera name
and the calibration record it currently holds. -/
structure ManagerState where
  camera_name : String
  info : CameraInfo
deriving Repr, DecidableEq

/-- Behaviour of the external calibration manager: URL validation is a pure
predicate; loading reads external storage and may throw. A successful load
replaces the manager's whole record with the loaded one. -/
structure ManagerEnv where
  validateURL : String → Bool
  loadCameraInfo : String → Except String CameraInfo

/-- Observable collaborator calls and log lines emitted during a
reconfiguration call. -/
inductive Event where
  | setName (n : String)
  | load (url : String)
  | warnURL (url : String)
  | errorReconf (e : String)
deriving Repr, DecidableEq

/-- MonoCamera::updateCameraInfo (mono_camera.cpp lines 128-168).
A working copy `ci` of the manager's record receives the configuration's
frame id, resolution, binning and ROI; if the requested URL differs from
the member camera_info_url_, the manager's camera name is set and, when the
URL validates, a load replaces both the manager's record and the working
copy (an invalid URL only logs a warning); do_rectify is then recomputed on
the working copy and the record is stored back. Errors carry the partial
manager state and the events emitted before the throw. -/
def updateCameraInfo (env : ManagerEnv) (camera_info_url : String)
    (man : ManagerState) (config : Config) :
    Except (String × ManagerState × List Event) (ManagerState × List Event) :=
  let ci0 := man.info
  let ci1 : CameraInfo :=
    { ci0 with
        frame_id := config.frame_id,
        height := config.height,
        width := config.width,
        binning_x := config.binning_x,
        binning_y := config.binning_y,
        roi :=
          { ci0.roi with
              x_offset := config.roi_offset_x,
              y_offset := config.roi_offset_y,
              height := config.roi_height,
              width := config.roi_width } }
  let step : Except (String × ManagerState × List Event)
      (ManagerState × CameraInfo × List Event) :=
    if config.camera_info_url ≠ camera_info_url then
      let man1 : ManagerState := { man with camera_name := config.frame_id }
      let evs1 : List Event := [Event.setName config.frame_id]
      if env.validateURL config.camera_info_url then
        match env.loadCameraInfo config.camera_info_url with
        | Except.ok loaded =>
            Except.ok ({ man1 with info := loaded }, loaded,
              evs1 ++ [Event.load config.camera_info_url])
        | Except.error e =>
            Except.error (e, man1, evs1 ++ [Event.load config.camera_info_url])
      else
        Except.ok (man1, ci1, evs1 ++ [Event.warnURL config.camera_info_url])
    else
      Except.ok (man, ci1, [])
  match step with
  | Except.error e => Except.error e
  | Except.ok (man2, ci2, evs) =>
      let roiMatchesCalibration : Bool :=
        ci2.height == config.roi_height && ci2.width == config.roi_width
      let resolutionMatchesCalibration : Bool :=
        ci2.width == config.width && ci2.height == config.height
      let ci3 : CameraInfo :=
        { ci2 with
            roi := { ci2.roi with
              do_rectify := roiMatchesCalibration || resolutionMatchesCalibration } }
      Except.ok ({ man2 with info := ci3 }, evs)

/-- The record freshly loaded by updateCameraInfo's URL branch, when the
requested URL differs from the stored member, validates and loads
successfully; `none` when no load replaces the working record. -/
def loadedRecord (env : ManagerEnv) (camera_info_url : String)
    (config : Config) : Option CameraInfo :=
  if config.camera_info_url ≠ camera_info_url then
    if env.validateURL config.camera_info_url then
      match env.loadCameraInfo config.camera_info_url with
      | Except.ok loaded => some loaded
      | Except.error _ => none
    else none
  else none

/-- State of the camera session wrapper (AvtVimbaCamera): whether it is
streaming and the configuration last applied to it. -/
structure CamState where
  running : Bool
  config : Option Config
deriving Repr, DecidableEq

/-- Failure injection for the camera operations inside configure's try
block: each operation either succeeds or throws the given message. -/
structure FailSpec where
  stopFail : Option String
  startFail : Option String
  updateFail : Option String
deriving Repr, DecidableEq

/-- MonoCamera node state used by the embedded functions: the parameters
read once at construction (ip_, guid_ and the member camera_info_url_),
the camera session and the calibration manager. -/
structure NodeState where
  ip : String
  guid : String
  camera_info_url : String
  cam : CamState
  man : ManagerState
deriving Repr, DecidableEq

/-- cam_.stop(): halts streaming, or throws as injected. -/
def camStop (fs : FailSpec) (c : CamState) : Except String CamState :=
  match fs.stopFail with
  | some e => Except.error e
  | none => Except.ok { c with running := false }

/-- cam_.start(ip, guid): resumes streaming, or throws as injected. -/
def camStart (fs : FailSpec) (c : CamState) : Except String CamState :=
  match fs.startFail with
  | some e => Except.error e
  | none => Except.ok { c with running := true }

/-- cam_.updateConfig(cfg): applies the configuration to the session, or
throws as injected. -/
def camUpdateConfig (fs : FailSpec) (c : CamState) (cfg : Config) :
    Except String CamState :=
  match fs.updateFail with
  | some e => Except.error e
  | none => Except.ok { c with config := some cfg }

/-- driver_base::SensorLevels::RECONFIGURE_CLOSE. -/
def RECONFIGURE_CLOSE : Nat := 3

/-- driver_base::SensorLevels::RECONFIGURE_STOP. -/
def RECONFIGURE_STOP : Nat := 1

/-- The frame-id defaulting at the top of configure (mono_camera.cpp lines
106-108): an empty requested frame id becomes the fixed fallback "camera";
all other fields pass through. -/
def effectiveConfig (newconfig : Config) : Config :=
  if newconfig.frame_id = "" then { newconfig with frame_id := "camera" }
  else newconfig

/-- The camera-session part of configure's try block (mono_camera.cpp lines
110-121): a severity level with the RECONFIGURE_CLOSE bit stops and
restarts the session before applying the configuration; the
RECONFIGURE_STOP bit does the same stop/restart; otherwise the
configuration is applied to the running session. Errors carry the camera
state reached before the throw. -/
def camReconfigure (fs : FailSpec) (c : CamState) (cfg : Config)
    (level : Nat) : Except (String × CamState) CamState :=
  if Nat.land level RECONFIGURE_CLOSE ≠ 0 then
    match camStop fs c with
    | Except.error e => Except.error (e, c)
    | Except.ok c1 =>
        match camStart fs c1 with
        | Except.error e => Except.error (e, c1)
        | Except.ok c2 =>
            match camUpdateConfig fs c2 cfg with
            | Except.error e => Except.error (e, c2)
            | Except.ok c3 => Except.ok c3
  else if Nat.land level RECONFIGURE_STOP ≠ 0 then
    match camStop fs c with
    | Except.error e => Except.error (e, c)
    | Except.ok c1 =>
        match camStart fs c1 with
        | Except.error e => Except.error (e, c1)
        | Except.ok c2 =>
            match camUpdateConfig fs c2 cfg with
            | Except.error e => Except.error (e, c2)
            | Except.ok c3 => Except.ok c3
  else
    match camUpdateConfig fs c cfg with
    | Except.error e => Except.error (e, c)
    | Except.ok c3 => Except.ok c3

/-- Body of MonoCamera::configure's try block (mono_camera.cpp lines
104-122): default an empty frame id to "camera", stop/restart the camera
session and apply the configuration according to the severity level, then
run updateCameraInfo against the member camera_info_url_. A throw reports
the node state reached so far. -/
def configureBody (fs : FailSpec) (env : ManagerEnv) (st : NodeState)
    (newconfig : Config) (level : Nat) :
    Except (String × NodeState × List Event) (NodeState × List Event) :=
  let cfg : Config := effectiveConfig newconfig
  match camReconfigure fs st.cam cfg level with
  | Except.error (e, c) => Except.error (e, { st with cam := c }, [])
  | Except.ok c =>
      match updateCameraInfo env st.camera_info_url st.man cfg with
      | Except.error (e, manp, evs) =>
          Except.error (e, { st with cam := c, man := manp }, evs)
      | Except.ok (man2, evs) =>
          Except.ok ({ st with cam := c, man := man2 }, evs)

/-- MonoCamera::configure (mono_camera.cpp lines 103-126): run the body and
catch any exception, logging it (ROS_ERROR_STREAM) instead of propagating
it to the caller. -/
def configure (fs : FailSpec) (env : ManagerEnv) (st : NodeState)
    (newconfig : Config) (level : Nat) : NodeState × List Event :=
  match configureBody fs env st newconfig level with
  | Except.ok (st2, evs) => (st2, evs)
  | Except.error (e, st2, evs) => (st2, evs ++ [Event.errorReconf e])

/-- An opaque Vimba frame buffer handle. -/
abbrev Frame : Type := Nat

/-- A sensor_msgs/Image: its timestamp and an opaque pixel payload. -/
structure Image where
  stamp : Nat
  data : List Nat
deriving Repr, DecidableEq

/-- Behaviour of the collaborators seen by the frame callback: the image
publisher's current subscriber count and the frame-to-image conversion
(api_.frameToImage), which either produces an image or fails. -/
structure FrameEnv where
  numSubscribers : Nat
  frameToImage : Frame → Option Image

/-- Outcome of one frame callback invocation: what was published (an image
paired with the calibration record, or nothing), how many conversion calls
were made, and whether the conversion-failure warning was logged. -/
structure FrameResult where
  published : Option (Image × CameraInfo)
  conversions : Nat
  warned : Bool
deriving Repr, DecidableEq

/-- MonoCamera::frameCallback (mono_camera.cpp lines 80-92): capture the
current time, and only when the publisher has subscribers convert the
frame; on success stamp both the image and the manager's calibration
record with the captured time and publish them as one pair, on failure log
a warning and publish nothing. -/
def frameCallback (env : FrameEnv) (now : Nat) (man : ManagerState)
    (frame : Frame) : FrameResult :=
  if env.numSubscribers > 0 then
    match env.frameToImage frame with
    | some img =>
        let ci := { man.info with stamp := now }
        let img2 := { img with stamp := now }
        { published := some (img2, ci), conversions := 1, warned := false }
    | none =>
        { published := none, conversions := 1, warned := true }
  else
    { published := none, conversions := 0, warned := false }

/-- All injected camera operations succeed: the camera wrapper throws
nothing during this reconfiguration. -/
def CamOk (fs : FailSpec) : Prop :=
  fs.stopFail = none ∧ fs.startFail = none ∧ fs.updateFail = none

/-- Loading from any URL succeeds: the calibration manager throws
nothing. -/
def LoadOk (env : ManagerEnv) : Prop :=
  ∀ u, ∃ ci, env.loadCameraInfo u = Except.ok ci

/-- The do_rectify flag stored by a successful updateCameraInfo call;
`none` when the call throws. -/
def rectifyFlagAfter (env : ManagerEnv) (camera_info_url : String)
    (man : ManagerState) (config : Config) : Option Bool :=
  match updateCameraInfo env camera_info_url man config with
  | Except.ok (m, _) => some m.info.roi.do_rectify
  | Except.error _ => none

/-- Sample calibration record held by the manager before reconfiguration:
a 480×640 calibration with payload [1, 2]. -/
def ciSample : CameraInfo :=
  ⟨"f0", 0, 480, 640, 1, 1, ⟨0, 0, 480, 640, false⟩, [1, 2]⟩

/-- Sample record stored behind a calibration URL: its own frame id,
dimensions 480×640, payload [9]. -/
def ciLoaded : CameraInfo :=
  ⟨"calibfile", 7, 480, 640, 2, 2, ⟨1, 2, 3, 4, true⟩, [9]⟩

/-- Sample manager state. -/
def manSample : ManagerState := ⟨"camname", ciSample⟩

/-- Sample node state with member camera_info_url_ = "file.yaml". -/
def stSample : NodeState := ⟨"ip", "guid", "file.yaml", ⟨true, none⟩, manSample⟩

/-- Sample configuration requesting 1000×2000 with ROI 10×20 and the
unchanged URL "file.yaml". -/
def cfgSameURL : Config := ⟨"cam0", 1000, 2000, 1, 1, 3, 4, 10, 20, "file.yaml"⟩

/-- Same configuration but requesting the new URL "new.yaml". -/
def cfgNewURL : Config := ⟨"cam0", 1000, 2000, 1, 1, 3, 4, 10, 20, "new.yaml"⟩

/-- Same configuration with an empty frame id and the new URL. -/
def cfgEmptyFrame : Config := ⟨"", 1000, 2000, 1, 1, 3, 4, 10, 20, "new.yaml"⟩

/-- Manager environment that rejects every URL. -/
def envInvalid : ManagerEnv := ⟨fun _ => false, fun _ => Except.error "io"⟩

/-- Manager environment that validates every URL and loads ciLoaded. -/
def envLoads : ManagerEnv := ⟨fun _ => true, fun _ => Except.ok ciLoaded⟩

/-- Camera wrapper that never throws. -/
def fsOk : FailSpec := ⟨none, none, none⟩

/-- Camera wrapper whose stop() throws "boom". -/
def fsStopThrows : FailSpec := ⟨some "boom", none, none⟩

/-- Frame environment with no subscribers. -/
def envNoSubs : FrameEnv := ⟨0, fun _ => none⟩

/-- Frame environment with one subscriber and a succeeding conversion. -/
def envSubsOk : FrameEnv := ⟨1, fun _ => some ⟨99, [3]⟩⟩

/-- Frame environment with subscribers and a failing conversion. -/
def envSubsFail : FrameEnv := ⟨2, fun _ => none⟩

/-- Whether configure's body runs to completion without a throw. -/
def bodySucceeds (fs : FailSpec) (env : ManagerEnv) (st : NodeState)
    (newconfig : Config) (level : Nat) : Bool :=
  match configureBody fs env st newconfig level with
  | Except.ok _ => true
  | Except.error _ => false

/-- Manager state produced by running updateCameraInfo on manSample with
cfgNewURL against envLoads: the loaded record with a recomputed (false)
do_rectify, under the requested camera name. -/
def manAfterLoad : ManagerState :=
  ⟨"cam0", ⟨"calibfile", 7, 480, 640, 2, 2, ⟨1, 2, 3, 4, false⟩, [9]⟩⟩

/-- Node state produced by configure on stSample with cfgSameURL at
severity 0 against envInvalid: session reconfigured, record carrying the
requested fields. -/
def st2SameURL : NodeState :=
  ⟨"ip", "guid", "file.yaml", ⟨true, some cfgSameURL⟩,
   ⟨"camname", ⟨"cam0", 0, 1000, 2000, 1, 1, ⟨3, 4, 10, 20, true⟩, [1, 2]⟩⟩⟩

/-- Node state produced by configure on stSample with cfgEmptyFrame at
severity 0 against envInvalid: the defaulted frame id "camera" reaches the
session configuration, the manager name and the stored record. -/
def st2EmptyFrame : NodeState :=
  ⟨"ip", "guid", "file.yaml",
   ⟨true, some ⟨"camera", 1000, 2000, 1, 1, 3, 4, 10, 20, "new.yaml"⟩⟩,
   ⟨"camera", ⟨"camera", 0, 1000, 2000, 1, 1, ⟨3, 4, 10, 20, true⟩, [1, 2]⟩⟩⟩

/-- Unfolding of effectiveConfig: only the frame id is touched. -/
theorem effectiveConfig_def (cfg : Config) :
    effectiveConfig cfg =
      { cfg with frame_id := if cfg.frame_id = "" then "camera" else cfg.frame_id } := by
  unfold effectiveConfig
  split <;> simp_all

/-- When the requested URL equals the stored member, updateCameraInfo takes
no URL branch: the manager keeps its name and calibration payload, the
configuration fields are copied in, and do_rectify is unconditionally true
because the working record's resolution was just overwritten with the
requested one. -/
theorem updateCameraInfo_url_eq (env : ManagerEnv) (url : String)
    (man : ManagerState) (config : Config)
    (h : config.camera_info_url = url) :
    updateCameraInfo env url man config =
      Except.ok ({ man with info :=
        { frame_id := config.frame_id, stamp := man.info.stamp,
          height := config.height, width := config.width,
          binning_x := config.binning_x, binning_y := config.binning_y,
          roi := { x_offset := config.roi_offset_x,
                   y_offset := config.roi_offset_y,
                   height := config.roi_height, width := config.roi_width,
                   do_rectify := true },
          calib := man.info.calib } }, []) := by
  simp [updateCameraInfo, h]

/-- When the requested URL differs but does not validate, updateCameraInfo
renames the manager, warns, keeps the calibration payload, and again stores
an unconditionally true do_rectify. -/
theorem updateCameraInfo_url_ne_invalid (env : ManagerEnv) (url : String)
    (man : ManagerState) (config : Config)
    (h1 : config.camera_info_url ≠ url)
    (h2 : env.validateURL config.camera_info_url = false) :
    updateCameraInfo env url man config =
      Except.ok ({ camera_name := config.frame_id, info :=
        { frame_id := config.frame_id, stamp := man.info.stamp,
          height := config.height, width := config.width,
          binning_x := config.binning_x, binning_y := config.binning_y,
          roi := { x_offset := config.roi_offset_x,
                   y_offset := config.roi_offset_y,
                   height := config.roi_height, width := config.roi_width,
                   do_rectify := true },
          calib := man.info.calib } },
        [Event.setName config.frame_id,
         Event.warnURL config.camera_info_url]) := by
  simp [updateCameraInfo, h1, h2]

/-- When the requested URL differs, validates and loads, the loaded record
replaces the working copy wholesale and do_rectify is recomputed on the
loaded record's dimensions. -/
theorem updateCameraInfo_url_ne_load_ok (env : ManagerEnv) (url : String)
    (man : ManagerState) (config : Config) (loaded : CameraInfo)
    (h1 : config.camera_info_url ≠ url)
    (h2 : env.validateURL config.camera_info_url = true)
    (h3 : env.loadCameraInfo config.camera_info_url = Except.ok loaded) :
    updateCameraInfo env url man config =
      Except.ok ({ camera_name := config.frame_id, info :=
        { loaded with roi := { loaded.roi with do_rectify :=
            (loaded.height == config.roi_height &&
             loaded.width == config.roi_width) ||
            (loaded.width == config.width &&
             loaded.height == config.height) } } },
        [Event.setName config.frame_id,
         Event.load config.camera_info_url]) := by
  simp [updateCameraInfo, h1, h2, h3]

/-- When the load throws, updateCameraInfo propagates the error with the
partially updated manager (renamed, record untouched). -/
theorem updateCameraInfo_url_ne_load_error (env : ManagerEnv) (url : String)
    (man : ManagerState) (config : Config) (e : String)
    (h1 : config.camera_info_url ≠ url)
    (h2 : env.validateURL config.camera_info_url = true)
    (h3 : env.loadCameraInfo config.camera_info_url = Except.error e) :
    updateCameraInfo env url man config =
      Except.error (e, { man with camera_name := config.frame_id },
        [Event.setName config.frame_id,
         Event.load config.camera_info_url]) := by
  simp [updateCameraInfo, h1, h2, h3]

/-- Under a non-throwing camera wrapper, camReconfigure succeeds: the
restarting levels leave the session running with the new configuration,
the running level only applies the configuration. -/
theorem camReconfigure_ok (fs : FailSpec) (c : CamState) (cfg : Config)
    (level : Nat) (h : CamOk fs) :
    camReconfigure fs c cfg level =
      Except.ok (if Nat.land level RECONFIGURE_CLOSE ≠ 0 ∨
                    Nat.land level RECONFIGURE_STOP ≠ 0
        then { running := true, config := some cfg }
        else { c with config := some cfg }) := by
  obtain ⟨h1, h2, h3⟩ := h
  by_cases hc : Nat.land level RECONFIGURE_CLOSE ≠ 0 <;>
    by_cases hs : Nat.land level RECONFIGURE_STOP ≠ 0 <;>
      simp [camReconfigure, camStop, camStart, camUpdateConfig, h1, h2, h3, hc, hs]

/-- C6: on a frame arrival with zero subscribers on the output channel, the
callback makes no frame-to-image conversion call and publishes nothing. -/
theorem frameCallback_skips_when_no_subscribers (env : FrameEnv) (now : Nat)
    (man : ManagerState) (frame : Frame) (h : env.numSubscribers = 0) :
    (frameCallback env now man frame).conversions = 0 ∧
    (frameCallback env now man frame).published = none := by
  simp [frameCallback, h]

/-- C6 witness: a concrete callback invocation with zero subscribers. -/
theorem frameCallback_skips_when_no_subscribers_witness :
    (frameCallback envNoSubs 5 manSample 7).conversions = 0 ∧
    (frameCallback envNoSubs 5 manSample 7).published = none :=
  frameCallback_skips_when_no_subscribers envNoSubs 5 manSample 7 rfl

/-- C7: with subscribers present and a succeeding conversion, the callback
publishes the image and the calibration record as one pair, both stamped
with the time captured at callback entry. -/
theorem frameCallback_pair_shares_timestamp (env : FrameEnv) (now : Nat)
    (man : ManagerState) (frame : Frame) (img0 : Image)
    (h1 : env.numSubscribers > 0)
    (h2 : env.frameToImage frame = some img0) :
    ∃ img ci, (frameCallback env now man frame).published = some (img, ci) ∧
      img.stamp = now ∧ ci.stamp = now := by
  refine ⟨{ img0 with stamp := now }, { man.info with stamp := now }, ?_, rfl, rfl⟩
  simp [frameCallback, h1, h2]

/-- C7 witness: a concrete callback invocation with one subscriber and a
succeeding conversion. -/
theorem frameCallback_pair_shares_timestamp_witness :
    ∃ img ci, (frameCallback envSubsOk 5 manSample 7).published = some (img, ci) ∧
      img.stamp = 5 ∧ ci.stamp = 5 :=
  frameCallback_pair_shares_timestamp envSubsOk 5 manSample 7 ⟨99, [3]⟩
    (by decide) rfl

/-- C8: with subscribers present and a failing conversion, the callback
logs the warning, publishes nothing, and makes exactly one conversion call
(no retry); it returns rather than propagating an error. -/
theorem frameCallback_drops_frame_on_failure (env : FrameEnv) (now : Nat)
    (man : ManagerState) (frame : Frame)
    (h1 : env.numSubscribers > 0)
    (h2 : env.frameToImage frame = none) :
    (frameCallback env now man frame).published = none ∧
    (frameCallback env now man frame).warned = true ∧
    (frameCallback env now man frame).conversions = 1 := by
  simp [frameCallback, h1, h2]

/-- C8 witness: a concrete callback invocation with subscribers and a
failing conversion. -/
theorem frameCallback_drops_frame_on_failure_witness :
    (frameCallback envSubsFail 5 manSample 7).published = none ∧
    (frameCallback envSubsFail 5 manSample 7).warned = true ∧
    (frameCallback envSubsFail 5 manSample 7).conversions = 1 :=
  frameCallback_drops_frame_on_failure envSubsFail 5 manSample 7 (by decide) rfl

/-- C3: a reconfiguration call whose requested calibration URL equals the
stored member camera_info_url_ leaves the URL-derived calibration payload
of the manager's record unchanged. -/
theorem calib_unchanged_when_url_unchanged (fs : FailSpec) (env : ManagerEnv)
    (st : NodeState) (newconfig : Config) (level : Nat)
    (h : newconfig.camera_info_url = st.camera_info_url) :
    (configure fs env st newconfig level).1.man.info.calib = st.man.info.calib := by
  have hurl : (effectiveConfig newconfig).camera_info_url = st.camera_info_url := by
    rw [effectiveConfig_def]
    exact h
  simp only [configure, configureBody]
  cases hcam : camReconfigure fs st.cam (effectiveConfig newconfig) level with
  | error p => simp [hcam]
  | ok c =>
      rw [updateCameraInfo_url_eq env st.camera_info_url st.man
        (effectiveConfig newconfig) hurl]

/-- C3 witness: a concrete reconfiguration with the unchanged URL
"file.yaml" keeps the payload [1, 2]. -/
theorem calib_unchanged_when_url_unchanged_witness :
    (configure fsOk envInvalid stSample cfgSameURL 0).1.man.info.calib =
      stSample.man.info.calib :=
  calib_unchanged_when_url_unchanged fsOk envInvalid stSample cfgSameURL 0 rfl

/-- C4: a changed URL that fails validation keeps the previous calibration
payload, logs the warning, attempts no load, and the call returns without
an error. -/
theorem invalid_url_keeps_calib_and_warns (env : ManagerEnv) (url : String)
    (man : ManagerState) (config : Config)
    (h1 : config.camera_info_url ≠ url)
    (h2 : env.validateURL config.camera_info_url = false) :
    ∃ man2 evs, updateCameraInfo env url man config = Except.ok (man2, evs) ∧
      man2.info.calib = man.info.calib ∧
      Event.warnURL config.camera_info_url ∈ evs ∧
      ∀ u, Event.load u ∉ evs := by
  refine ⟨_, _, updateCameraInfo_url_ne_invalid env url man config h1 h2, rfl, ?_, ?_⟩
  · simp
  · intro u
    simp

/-- C4 witness: a concrete call with the rejected URL "new.yaml". -/
theorem invalid_url_keeps_calib_and_warns_witness :
    ∃ man2 evs,
      updateCameraInfo envInvalid "file.yaml" manSample cfgNewURL =
        Except.ok (man2, evs) ∧
      man2.info.calib = manSample.info.calib ∧
      Event.warnURL cfgNewURL.camera_info_url ∈ evs ∧
      ∀ u, Event.load u ∉ evs :=
  invalid_url_keeps_calib_and_warns envInvalid "file.yaml" manSample cfgNewURL
    (by decide) rfl

/-- A reconfiguration whose collaborators all succeed runs the whole body
without an exception. -/
theorem configureBody_ok_of_noThrow (fs : FailSpec) (env : ManagerEnv)
    (st : NodeState) (newconfig : Config) (level : Nat)
    (hc : CamOk fs) (hl : LoadOk env) :
    ∃ out, configureBody fs env st newconfig level = Except.ok out := by
  simp only [configureBody]
  rw [camReconfigure_ok fs st.cam (effectiveConfig newconfig) level hc]
  by_cases hu : (effectiveConfig newconfig).camera_info_url = st.camera_info_url
  · rw [updateCameraInfo_url_eq env st.camera_info_url st.man _ hu]
    exact ⟨_, rfl⟩
  · by_cases hv : env.validateURL (effectiveConfig newconfig).camera_info_url = true
    · obtain ⟨ci, hci⟩ := hl (effectiveConfig newconfig).camera_info_url
      rw [updateCameraInfo_url_ne_load_ok env st.camera_info_url st.man _ ci hu hv hci]
      exact ⟨_, rfl⟩
    · rw [updateCameraInfo_url_ne_invalid env st.camera_info_url st.man _ hu
        (by simpa using hv)]
      exact ⟨_, rfl⟩

/-- Whatever the outcome, a configure call never changes the member
camera_info_url_ it compares requested URLs against. -/
theorem configure_preserves_camera_info_url (fs : FailSpec) (env : ManagerEnv)
    (st : NodeState) (newconfig : Config) (level : Nat) :
    (configure fs env st newconfig level).1.camera_info_url =
      st.camera_info_url := by
  simp only [configure, configureBody]
  cases hcam : camReconfigure fs st.cam (effectiveConfig newconfig) level with
  | error p =>
      obtain ⟨e, c⟩ := p
      simp
  | ok c =>
      cases hupd : updateCameraInfo env st.camera_info_url st.man
          (effectiveConfig newconfig) with
      | error p =>
          obtain ⟨e, manp, evs⟩ := p
          simp
      | ok p =>
          obtain ⟨man2, evs⟩ := p
          simp

/-- A reconfiguration requesting a URL that differs from the member and
validates emits both the profile re-selection and the load attempt,
whether or not the load itself throws. -/
theorem configure_load_events (fs : FailSpec) (env : ManagerEnv)
    (st : NodeState) (newconfig : Config) (level : Nat) (hc : CamOk fs)
    (hne : newconfig.camera_info_url ≠ st.camera_info_url)
    (hv : env.validateURL newconfig.camera_info_url = true) :
    Event.setName (effectiveConfig newconfig).frame_id ∈
      (configure fs env st newconfig level).2 ∧
    Event.load newconfig.camera_info_url ∈
      (configure fs env st newconfig level).2 := by
  have hu : (effectiveConfig newconfig).camera_info_url =
      newconfig.camera_info_url := by
    rw [effectiveConfig_def]
  simp only [configure, configureBody]
  rw [camReconfigure_ok fs st.cam (effectiveConfig newconfig) level hc]
  cases hload : env.loadCameraInfo newconfig.camera_info_url with
  | ok loaded =>
      rw [updateCameraInfo_url_ne_load_ok env st.camera_info_url st.man
        (effectiveConfig newconfig) loaded (by rw [hu]; exact hne)
        (by rw [hu]; exact hv) (by rw [hu]; exact hload)]
      simp [hu]
  | error e =>
      rw [updateCameraInfo_url_ne_load_error env st.camera_info_url st.man
        (effectiveConfig newconfig) e (by rw [hu]; exact hne)
        (by rw [hu]; exact hv) (by rw [hu]; exact hload)]
      simp [hu]

/-- C5: every exception thrown inside the reconfigure sequence is caught by
configure and turned into an error log entry while the state reached before
the throw is kept, and a later reconfiguration whose collaborators do not
throw completes its body normally. -/
theorem configure_catches_logs_and_recovers (fs : FailSpec) (env : ManagerEnv)
    (st : NodeState) (newconfig : Config) (level : Nat) :
    (∀ e sp evs,
      configureBody fs env st newconfig level = Except.error (e, sp, evs) →
      configure fs env st newconfig level =
        (sp, evs ++ [Event.errorReconf e])) ∧
    (∀ fs2 env2 cfg2 level2, CamOk fs2 → LoadOk env2 →
      ∃ out, configureBody fs2 env2 (configure fs env st newconfig level).1
        cfg2 level2 = Except.ok out) := by
  constructor
  · intro e sp evs h
    simp [configure, h]
  · intro fs2 env2 cfg2 level2 hc2 hl2
    exact configureBody_ok_of_noThrow fs2 env2 _ cfg2 level2 hc2 hl2

/-- C5 witness: with a stop() that throws "boom" at severity 3, configure
returns the prior state plus the error log, and a following call with a
non-throwing wrapper completes its body. -/
theorem configure_catches_logs_and_recovers_witness :
    configure fsStopThrows envLoads stSample cfgSameURL 3 =
      (stSample, [Event.errorReconf "boom"]) ∧
    ∃ out, configureBody fsOk envLoads
      (configure fsStopThrows envLoads stSample cfgSameURL 3).1 cfgSameURL 3 =
        Except.ok out :=
  ⟨(configure_catches_logs_and_recovers fsStopThrows envLoads stSample
      cfgSameURL 3).1 "boom" stSample [] rfl,
   (configure_catches_logs_and_recovers fsStopThrows envLoads stSample
      cfgSameURL 3).2 fsOk envLoads cfgSameURL 3 ⟨rfl, rfl, rfl⟩
      (fun _u => ⟨ciLoaded, rfl⟩)⟩

/-- C10: the member camera_info_url_ is never updated by a reconfiguration,
so each call compares against the startup value: two consecutive calls
requesting the same new, valid URL both re-select the profile and both
re-trigger the calibration load. -/
theorem camera_info_url_constant_and_retriggers (fs : FailSpec)
    (env : ManagerEnv) (st : NodeState) (newconfig : Config) (level : Nat) :
    (configure fs env st newconfig level).1.camera_info_url =
      st.camera_info_url ∧
    (CamOk fs → newconfig.camera_info_url ≠ st.camera_info_url →
      env.validateURL newconfig.camera_info_url = true →
      (Event.setName (effectiveConfig newconfig).frame_id ∈
         (configure fs env st newconfig level).2 ∧
       Event.load newconfig.camera_info_url ∈
         (configure fs env st newconfig level).2 ∧
       Event.setName (effectiveConfig newconfig).frame_id ∈
         (configure fs env (configure fs env st newconfig level).1 newconfig
           level).2 ∧
       Event.load newconfig.camera_info_url ∈
         (configure fs env (configure fs env st newconfig level).1 newconfig
           level).2)) := by
  refine ⟨configure_preserves_camera_info_url fs env st newconfig level, ?_⟩
  intro hc hne hv
  obtain ⟨m1, m2⟩ := configure_load_events fs env st newconfig level hc hne hv
  have hne2 : newconfig.camera_info_url ≠
      (configure fs env st newconfig level).1.camera_info_url := by
    rw [configure_preserves_camera_info_url fs env st newconfig level]
    exact hne
  obtain ⟨m3, m4⟩ := configure_load_events fs env
    (configure fs env st newconfig level).1 newconfig level hc hne2 hv
  exact ⟨m1, m2, m3, m4⟩

/-- C10 witness: a concrete pair of consecutive calls with the new valid
URL "new.yaml", each emitting the re-selection and the load. -/
theorem camera_info_url_constant_and_retriggers_witness :
    (configure fsOk envLoads stSample cfgNewURL 0).1.camera_info_url =
      stSample.camera_info_url ∧
    (Event.setName (effectiveConfig cfgNewURL).frame_id ∈
       (configure fsOk envLoads stSample cfgNewURL 0).2 ∧
     Event.load cfgNewURL.camera_info_url ∈
       (configure fsOk envLoads stSample cfgNewURL 0).2 ∧
     Event.setName (effectiveConfig cfgNewURL).frame_id ∈
       (configure fsOk envLoads (configure fsOk envLoads stSample cfgNewURL
         0).1 cfgNewURL 0).2 ∧
     Event.load cfgNewURL.camera_info_url ∈
       (configure fsOk envLoads (configure fsOk envLoads stSample cfgNewURL
         0).1 cfgNewURL 0).2) :=
  ⟨(camera_info_url_constant_and_retriggers fsOk envLoads stSample cfgNewURL
      0).1,
   (camera_info_url_constant_and_retriggers fsOk envLoads stSample cfgNewURL
      0).2 ⟨rfl, rfl, rfl⟩ (by decide) rfl⟩

/-- C1 (amended): the stored do_rectify flag is computed on the working
record at flag-computation time: when a load replaced it, the flag is true
exactly when the loaded record's dimensions equal the requested ROI or the
requested resolution; when no load occurred, the working record's
resolution was just overwritten with the requested one, so the resolution
comparison is vacuous and the flag is unconditionally true. -/
theorem do_rectify_flag_characterization (env : ManagerEnv) (url : String)
    (man : ManagerState) (config : Config) (man2 : ManagerState)
    (evs : List Event)
    (h : updateCameraInfo env url man config = Except.ok (man2, evs)) :
    man2.info.roi.do_rectify =
      (match loadedRecord env url config with
       | some lr =>
           ((lr.height == config.roi_height && lr.width == config.roi_width) ||
            (lr.width == config.width && lr.height == config.height))
       | none => true) := by
  by_cases hu : config.camera_info_url = url
  · rw [updateCameraInfo_url_eq env url man config hu] at h
    rw [Except.ok.injEq, Prod.mk.injEq] at h
    obtain ⟨h1, h2⟩ := h
    rw [← h1]
    simp [loadedRecord, hu]
  · by_cases hv : env.validateURL config.camera_info_url = true
    · cases hload : env.loadCameraInfo config.camera_info_url with
      | ok loaded =>
          rw [updateCameraInfo_url_ne_load_ok env url man config loaded hu hv
            hload] at h
          rw [Except.ok.injEq, Prod.mk.injEq] at h
          obtain ⟨h1, h2⟩ := h
          rw [← h1]
          simp [loadedRecord, hu, hv, hload]
      | error e =>
          rw [updateCameraInfo_url_ne_load_error env url man config e hu hv
            hload] at h
          exact absurd h (by simp)
    · have hvf : env.validateURL config.camera_info_url = false := by
        simpa using hv
      rw [updateCameraInfo_url_ne_invalid env url man config hu hvf] at h
      rw [Except.ok.injEq, Prod.mk.injEq] at h
      obtain ⟨h1, h2⟩ := h
      rw [← h1]
      simp [loadedRecord, hu, hvf]

/-- C1 amended witness: the load of ciLoaded (480×640) against a request
for ROI 10×20 at resolution 1000×2000 stores a false flag, matching the
characterization. -/
theorem do_rectify_flag_characterization_witness :
    manAfterLoad.info.roi.do_rectify =
      (match loadedRecord envLoads "file.yaml" cfgNewURL with
       | some lr =>
           ((lr.height == cfgNewURL.roi_height &&
             lr.width == cfgNewURL.roi_width) ||
            (lr.width == cfgNewURL.width && lr.height == cfgNewURL.height))
       | none => true) :=
  do_rectify_flag_characterization envLoads "file.yaml" manSample cfgNewURL
    manAfterLoad [Event.setName "cam0", Event.load "new.yaml"] rfl

/-- C1 counterexample: with the URL unchanged no load occurs, the manager's
previously loaded calibration is 480×640, the request asks for ROI 10×20 at
resolution 1000×2000 — the claim says the flag must be false, yet the code
stores true (the working record's resolution was overwritten before the
comparison). -/
theorem do_rectify_claim_counterexample :
    loadedRecord envInvalid "file.yaml" cfgSameURL = none ∧
    rectifyFlagAfter envInvalid "file.yaml" manSample cfgSameURL = some true ∧
    ¬((manSample.info.height = cfgSameURL.roi_height ∧
       manSample.info.width = cfgSameURL.roi_width) ∨
      (manSample.info.height = cfgSameURL.height ∧
       manSample.info.width = cfgSameURL.width)) := by
  decide

/-- A camReconfigure call that returns normally always left the requested
configuration applied to the session. -/
theorem camReconfigure_ok_config (fs : FailSpec) (c : CamState) (cfg : Config)
    (level : Nat) (c2 : CamState)
    (h : camReconfigure fs c cfg level = Except.ok c2) :
    c2.config = some cfg := by
  cases h1 : fs.stopFail <;> cases h2 : fs.startFail <;>
    cases h3 : fs.updateFail <;>
    simp only [camReconfigure, camStop, camStart, camUpdateConfig, h1, h2,
      h3] at h <;>
    split at h <;>
    (try split at h) <;>
    first
      | exact Except.noConfusion h
      | rw [← Except.ok.inj h]

/-- A configure body that completes leaves the session holding the
effective configuration. -/
theorem configureBody_ok_cam_config (fs : FailSpec) (env : ManagerEnv)
    (st : NodeState) (newconfig : Config) (level : Nat) (st2 : NodeState)
    (evs : List Event)
    (hok : configureBody fs env st newconfig level = Except.ok (st2, evs)) :
    st2.cam.config = some (effectiveConfig newconfig) := by
  simp only [configureBody] at hok
  cases hcam : camReconfigure fs st.cam (effectiveConfig newconfig) level with
  | error p =>
      rw [hcam] at hok
      exact absurd hok (by simp)
  | ok c =>
      rw [hcam] at hok
      cases hupd : updateCameraInfo env st.camera_info_url st.man
          (effectiveConfig newconfig) with
      | error p =>
          rw [hupd] at hok
          exact absurd hok (by simp)
      | ok p =>
          obtain ⟨man2, evs2⟩ := p
          rw [hupd, Except.ok.injEq, Prod.mk.injEq] at hok
          obtain ⟨hst, hevs⟩ := hok
          rw [← hst]
          exact camReconfigure_ok_config fs st.cam (effectiveConfig newconfig)
            level c hcam

/-- A configure body that completes while no load replaced the working
record stores a record built purely from the effective configuration, the
prior stamp and the prior calibration payload. -/
theorem configureBody_ok_no_load_info (fs : FailSpec) (env : ManagerEnv)
    (st : NodeState) (newconfig : Config) (level : Nat) (st2 : NodeState)
    (evs : List Event)
    (hok : configureBody fs env st newconfig level = Except.ok (st2, evs))
    (hnl : loadedRecord env st.camera_info_url (effectiveConfig newconfig) =
      none) :
    st2.man.info =
      { frame_id := (effectiveConfig newconfig).frame_id,
        stamp := st.man.info.stamp,
        height := (effectiveConfig newconfig).height,
        width := (effectiveConfig newconfig).width,
        binning_x := (effectiveConfig newconfig).binning_x,
        binning_y := (effectiveConfig newconfig).binning_y,
        roi := ⟨(effectiveConfig newconfig).roi_offset_x,
                (effectiveConfig newconfig).roi_offset_y,
                (effectiveConfig newconfig).roi_height,
                (effectiveConfig newconfig).roi_width, true⟩,
        calib := st.man.info.calib } := by
  simp only [configureBody] at hok
  cases hcam : camReconfigure fs st.cam (effectiveConfig newconfig) level with
  | error p =>
      rw [hcam] at hok
      exact absurd hok (by simp)
  | ok c =>
      rw [hcam] at hok
      by_cases hu : (effectiveConfig newconfig).camera_info_url =
          st.camera_info_url
      · rw [updateCameraInfo_url_eq env st.camera_info_url st.man _ hu] at hok
        rw [Except.ok.injEq, Prod.mk.injEq] at hok
        obtain ⟨hst, hevs⟩ := hok
        rw [← hst]
      · by_cases hv : env.validateURL
            (effectiveConfig newconfig).camera_info_url = true
        · cases hload : env.loadCameraInfo
              (effectiveConfig newconfig).camera_info_url with
          | ok loaded =>
              simp [loadedRecord, hu, hv, hload] at hnl
          | error e =>
              rw [updateCameraInfo_url_ne_load_error env st.camera_info_url
                st.man _ e hu hv hload] at hok
              exact absurd hok (by simp)
        · have hvf : env.validateURL
              (effectiveConfig newconfig).camera_info_url = false := by
            simpa using hv
          rw [updateCameraInfo_url_ne_invalid env st.camera_info_url st.man _
            hu hvf] at hok
          rw [Except.ok.injEq, Prod.mk.injEq] at hok
          obtain ⟨hst, hevs⟩ := hok
          rw [← hst]

/-- C2 (amended): a reconfiguration that completes without an exception and
in which no calibration load replaced the working record (URL unchanged, or
changed but invalid) stores a record carrying the effective configuration's
frame id and the requested resolution, binning and ROI; when a changed
valid URL loads, the loaded record's fields are stored instead. -/
theorem stored_record_carries_config_when_no_load (fs : FailSpec)
    (env : ManagerEnv) (st : NodeState) (newconfig : Config) (level : Nat)
    (st2 : NodeState) (evs : List Event)
    (hok : configureBody fs env st newconfig level = Except.ok (st2, evs))
    (hnl : loadedRecord env st.camera_info_url (effectiveConfig newconfig) =
      none) :
    st2.man.info.frame_id = (effectiveConfig newconfig).frame_id ∧
    st2.man.info.height = newconfig.height ∧
    st2.man.info.width = newconfig.width ∧
    st2.man.info.binning_x = newconfig.binning_x ∧
    st2.man.info.binning_y = newconfig.binning_y ∧
    st2.man.info.roi.x_offset = newconfig.roi_offset_x ∧
    st2.man.info.roi.y_offset = newconfig.roi_offset_y ∧
    st2.man.info.roi.height = newconfig.roi_height ∧
    st2.man.info.roi.width = newconfig.roi_width := by
  rw [configureBody_ok_no_load_info fs env st newconfig level st2 evs hok hnl]
  simp [effectiveConfig_def]

/-- C2 amended witness: the concrete no-load reconfiguration of stSample
with cfgSameURL stores the requested fields. -/
theorem stored_record_carries_config_when_no_load_witness :
    st2SameURL.man.info.frame_id = (effectiveConfig cfgSameURL).frame_id ∧
    st2SameURL.man.info.height = cfgSameURL.height ∧
    st2SameURL.man.info.width = cfgSameURL.width ∧
    st2SameURL.man.info.binning_x = cfgSameURL.binning_x ∧
    st2SameURL.man.info.binning_y = cfgSameURL.binning_y ∧
    st2SameURL.man.info.roi.x_offset = cfgSameURL.roi_offset_x ∧
    st2SameURL.man.info.roi.y_offset = cfgSameURL.roi_offset_y ∧
    st2SameURL.man.info.roi.height = cfgSameURL.roi_height ∧
    st2SameURL.man.info.roi.width = cfgSameURL.roi_width :=
  stored_record_carries_config_when_no_load fsOk envInvalid stSample
    cfgSameURL 0 st2SameURL [] rfl rfl

/-- C2 counterexample: a completing reconfiguration whose changed, valid
URL loads ciLoaded stores the loaded record's frame id (480×640,
"calibfile"), not the requested one ("cam0", 1000×2000). -/
theorem stored_record_claim_counterexample :
    bodySucceeds fsOk envLoads stSample cfgNewURL 0 = true ∧
    (configure fsOk envLoads stSample cfgNewURL 0).1.man.info.frame_id =
      "calibfile" ∧
    (effectiveConfig cfgNewURL).frame_id = "cam0" ∧
    ¬(("calibfile" : String) = "cam0") ∧
    (configure fsOk envLoads stSample cfgNewURL 0).1.man.info.height = 480 ∧
    cfgNewURL.height = 1000 ∧
    ¬((480 : Nat) = 1000) := by
  decide

/-- C9 (amended): with an empty requested frame id, the effective frame id
is "camera"; it is applied to the session configuration, and it is written
into the stored calibration record whenever no load replaced the working
record. -/
theorem empty_frame_id_defaults_to_camera (fs : FailSpec) (env : ManagerEnv)
    (st : NodeState) (newconfig : Config) (level : Nat) (st2 : NodeState)
    (evs : List Event)
    (hempty : newconfig.frame_id = "")
    (hok : configureBody fs env st newconfig level = Except.ok (st2, evs)) :
    (effectiveConfig newconfig).frame_id = "camera" ∧
    st2.cam.config = some (effectiveConfig newconfig) ∧
    (loadedRecord env st.camera_info_url (effectiveConfig newconfig) = none →
      st2.man.info.frame_id = "camera") := by
  have hfid : (effectiveConfig newconfig).frame_id = "camera" := by
    rw [effectiveConfig_def]
    simp [hempty]
  refine ⟨hfid,
    configureBody_ok_cam_config fs env st newconfig level st2 evs hok, ?_⟩
  intro hnl
  rw [configureBody_ok_no_load_info fs env st newconfig level st2 evs hok hnl]
  exact hfid

/-- C9 amended witness: a concrete empty-frame-id reconfiguration whose
URL is rejected: the fallback "camera" reaches the session and the
record. -/
theorem empty_frame_id_defaults_to_camera_witness :
    (effectiveConfig cfgEmptyFrame).frame_id = "camera" ∧
    st2EmptyFrame.cam.config = some (effectiveConfig cfgEmptyFrame) ∧
    st2EmptyFrame.man.info.frame_id = "camera" :=
  ⟨(empty_frame_id_defaults_to_camera fsOk envInvalid stSample cfgEmptyFrame 0
      st2EmptyFrame [Event.setName "camera", Event.warnURL "new.yaml"] rfl
      rfl).1,
   (empty_frame_id_defaults_to_camera fsOk envInvalid stSample cfgEmptyFrame 0
      st2EmptyFrame [Event.setName "camera", Event.warnURL "new.yaml"] rfl
      rfl).2.1,
   (empty_frame_id_defaults_to_camera fsOk envInvalid stSample cfgEmptyFrame 0
      st2EmptyFrame [Event.setName "camera", Event.warnURL "new.yaml"] rfl
      rfl).2.2 (by decide)⟩

/-- C9 counterexample: an empty-frame-id reconfiguration that completes
while a changed, valid URL loads ciLoaded stores the loaded record's frame
id "calibfile", not the fallback "camera". -/
theorem empty_frame_id_claim_counterexample :
    cfgEmptyFrame.frame_id = "" ∧
    bodySucceeds fsOk envLoads stSample cfgEmptyFrame 0 = true ∧
    (configure fsOk envLoads stSample cfgEmptyFrame 0).1.man.info.frame_id =
      "calibfile" ∧
    ¬(("calibfile" : String) = "camera") := by
  decide

end AvtVimbaCamera
